import Mathlib

/-
Verification of the pyflann ctypes binding (pyflann/flann_ctypes.py).

The Python module is embedded shallowly:
  * ctypes scalar/pointer types become the inductive `CType`;
  * the `CustomStructure` class (field list, translation tables, and the
    `update` / `__getitem__` / `__setitem__` / `__translate` /
    `__translate_back` methods) becomes pure functions over an explicit
    field-value store (`State`);
  * Python values that may be assigned to a ctypes field are modelled by
    `PyVal` (integers and strings); storing a string into a numeric ctypes
    field raises `TypeError`, and storing an out-of-range integer into a
    fixed-width integer field silently wraps, both reflected in
    `ctype_store`;
  * the library loader becomes a function over an abstract filesystem
    environment mapping each candidate path to its load outcome;
  * the per-datatype function-table registration (`define_functions` plus
    the explicit `double` exceptions) becomes the construction of
    association lists from `DType` keys to typed native entry points;
  * `ensure_2d_array` is modelled over a shape-carrying array, with numpy
    `reshape(-1, m)` semantics (the inferred dimension fails when the known
    dimension product is zero).
-/

set_option autoImplicit false

deriving instance DecidableEq for Except

namespace PyFlann

/-- Numpy element datatypes supported by the binding
(`allowed_types = [float32, float64, uint8, int32]`). -/
inductive DType
  | float32
  | float64
  | uint8
  | int32
deriving DecidableEq, Repr

/-- The ctypes type expressions that appear in field declarations and in
native function signatures in flann_ctypes.py. `flann_index` stands for
`FLANN_INDEX = c_void_p`; `ndpointer d ndim writeable` stands for
`ndpointer(d, ndim=.., flags='aligned, c_contiguous[, writeable]')`
(`ndim = none` when the ndim keyword is omitted). -/
inductive CType
  | c_int
  | c_float
  | c_uint
  | c_long
  | c_char_p
  | flann_index
  | ptr_c_float
  | ptr_flann_params
  | ndpointer (d : DType) (ndim : Option Nat) (writeable : Bool)
deriving DecidableEq, Repr

/-- Python-level values assigned to configuration fields: integers and
symbolic strings. -/
inductive PyVal
  | int (n : Int)
  | str (s : String)
deriving DecidableEq, Repr

/-- The synchronous Python errors the modelled code can raise. -/
inductive PyError
  | keyError (k : String)
  | typeError
  | valueError
deriving DecidableEq, Repr

/-- The `_fields_` list of `FLANNParameters`, in source order. -/
def FLANNParameters_fields : List (String × CType) :=
  [ ("algorithm", .c_int)
  , ("checks", .c_int)
  , ("eps", .c_float)
  , ("sorted", .c_int)
  , ("max_neighbors", .c_int)
  , ("cores", .c_int)
  , ("trees", .c_int)
  , ("leaf_max_size", .c_int)
  , ("branching", .c_int)
  , ("iterations", .c_int)
  , ("centers_init", .c_int)
  , ("cb_index", .c_float)
  , ("target_precision", .c_float)
  , ("build_weight", .c_float)
  , ("memory_weight", .c_float)
  , ("sample_fraction", .c_float)
  , ("table_number_", .c_uint)
  , ("key_size_", .c_uint)
  , ("multi_probe_level_", .c_uint)
  , ("log_level", .c_int)
  , ("random_seed", .c_long) ]

/-- The `algorithm` translation table, in source (dict insertion) order. -/
def algorithm_table : List (String × Int) :=
  [ ("linear", 0), ("kdtree", 1), ("kmeans", 2), ("composite", 3)
  , ("kdtree_single", 4), ("hierarchical", 5), ("lsh", 6)
  , ("saved", 254), ("autotuned", 255), ("default", 1) ]

/-- The `centers_init` translation table, in source order. -/
def centers_init_table : List (String × Int) :=
  [ ("random", 0), ("gonzales", 1), ("kmeanspp", 2), ("default", 0) ]

/-- The `log_level` translation table, in source order. -/
def log_level_table : List (String × Int) :=
  [ ("none", 0), ("fatal", 1), ("error", 2), ("warning", 3)
  , ("info", 4), ("default", 2) ]

/-- The `_translation_` dict of `FLANNParameters`. -/
def FLANNParameters_translation : List (String × List (String × Int)) :=
  [ ("algorithm", algorithm_table)
  , ("centers_init", centers_init_table)
  , ("log_level", log_level_table) ]

/-- A `CustomStructure` subclass is determined by its `_fields_` list and
its `_translation_` dict (defaults are not needed by any claim). -/
structure CustomStructure where
  fields : List (String × CType)
  translation : List (String × List (String × Int))
deriving DecidableEq, Repr

/-- The `FLANNParameters` structure. -/
def flann_params : CustomStructure :=
  ⟨FLANNParameters_fields, FLANNParameters_translation⟩

/-- The ctypes-level store backing a structure instance: the numeric value
of each field that has been assigned (ctypes zero-initializes, so reading a
never-assigned field yields 0). -/
def State := List (String × Int)
deriving DecidableEq, Repr

/-- Assign a field in the store, Python-attribute style: overwrite in place
when present, append otherwise. -/
def setStore (st : State) (k : String) (n : Int) : State :=
  match st with
  | [] => [(k, n)]
  | (k2, v2) :: rest =>
      if k2 = k then (k, n) :: rest else (k2, v2) :: setStore rest k n

/-- Read a field from the store (`getattr`); ctypes zero-initializes
unassigned fields. -/
def getStore (st : State) (k : String) : Int :=
  (List.lookup k st).getD 0

/-- Two's-complement wrap-around of an integer into `bits` signed bits, as
ctypes silently applies when an out-of-range Python int is assigned to a
fixed-width signed field. -/
def wrap_signed (bits : Nat) (n : Int) : Int :=
  (n + 2 ^ (bits - 1)) % 2 ^ bits - 2 ^ (bits - 1)

/-- Wrap-around of an integer into `bits` unsigned bits. -/
def wrap_unsigned (bits : Nat) (n : Int) : Int :=
  n % 2 ^ bits

/-- The ctypes assignment step for a field of a given ctype: the integer
field types of `FLANNParameters` accept any Python int, silently masking it
to the field width with no overflow check (c_int and c_uint are 32-bit,
c_long is 64-bit on the targeted platforms), and raise `TypeError` on a
string. A Python int assigned to a c_float field is converted; float32
rounding of huge values is not modelled, and no claim reads a c_float
field back. -/
def ctype_store (ct : CType) (v : PyVal) : Except PyError Int :=
  match ct, v with
  | .c_int, .int n => .ok (wrap_signed 32 n)
  | .c_uint, .int n => .ok (wrap_unsigned 32 n)
  | .c_long, .int n => .ok (wrap_signed 64 n)
  | _, .int n => .ok n
  | _, .str _ => .error .typeError

/-- `CustomStructure.__translate(k, v)`: when field `k` has a translation
table and `v` is one of its keys, return the mapped integer; otherwise
return `v` unchanged. (A Python `v in dict` test against string keys is
false for any non-string `v`.) -/
def translate (c : CustomStructure) (k : String) (v : PyVal) : PyVal :=
  match List.lookup k c.translation with
  | some tbl =>
      match v with
      | .str s =>
          match List.lookup s tbl with
          | some n => .int n
          | none => v
      | .int _ => v
  | none => v

/-- `CustomStructure.__translate_back(k, v)`: when field `k` has a
translation table, return the first symbolic key whose code equals `v`
(dict iteration order = insertion order); otherwise return `v`. -/
def translate_back (c : CustomStructure) (k : String) (v : Int) : PyVal :=
  match List.lookup k c.translation with
  | some tbl =>
      match tbl.find? (fun p => p.2 == v) with
      | some p => .str p.1
      | none => .int v
  | none => .int v

/-- `CustomStructure.__setitem__(k, v)`: translate and assign when `k` is a
field name, raise `KeyError` otherwise. -/
def setitem (c : CustomStructure) (st : State) (k : String) (v : PyVal) :
    Except PyError State :=
  match List.lookup k c.fields with
  | some ct => (ctype_store ct (translate c k v)).map (fun n => setStore st k n)
  | none => .error (.keyError k)

/-- `CustomStructure.__getitem__(k)`: translate back and return when `k` is
a field name; otherwise the method body falls through and Python returns
`None`, modelled as `none`. -/
def getitem (c : CustomStructure) (st : State) (k : String) : Option PyVal :=
  match List.lookup k c.fields with
  | some _ => some (translate_back c k (getStore st k))
  | none => none

/-- `CustomStructure.update(dict)`: iterate the items in order, assigning
each; an unknown key raises `KeyError` at that point. -/
def update (c : CustomStructure) :
    State → List (String × PyVal) → Except PyError State
  | st, [] => .ok st
  | st, (k, v) :: rest =>
      match setitem c st k v with
      | .ok st2 => update c st2 rest
      | .error e => .error e

/-- A native function's ctypes declaration: the symbol name on the shared
library and the `restype` / `argtypes` assigned to it (`restype = none`
models `restype = None`). -/
structure EntryPoint where
  symbol : String
  restype : Option CType
  argtypes : List CType
deriving DecidableEq, Repr

/-- A per-family dispatch dictionary `flann.<family>`, mapping a numpy
element datatype to the registered native entry point, in dict insertion
order. -/
def Dict := List (DType × EntryPoint)
deriving DecidableEq, Repr

/-- Python dict assignment `dct[k] = v`: overwrite in place when the key is
present, append otherwise. -/
def dict_set (dct : Dict) (k : DType) (v : EntryPoint) : Dict :=
  match dct with
  | [] => [(k, v)]
  | (k2, v2) :: rest =>
      if k2 = k then (k, v) :: rest else (k2, v2) :: dict_set rest k v

/-- The key list of a dispatch dictionary. -/
def dict_keys (dct : Dict) : List DType :=
  dct.map Prod.fst

/-- Dictionary lookup. -/
def dict_get (dct : Dict) (k : DType) : Option EntryPoint :=
  match dct with
  | [] => none
  | (k2, v2) :: rest => if k2 = k then some v2 else dict_get rest k

/-- The `type_mappings` tuple: C-name suffix paired with numpy datatype, in
source order (float, double, byte, int). -/
def type_mappings : List (String × DType) :=
  [ ("float", .float32), ("double", .float64)
  , ("byte", .uint8), ("int", .int32) ]

/-- `define_functions(fmtstr)`: instantiate the format string at each of
the four type mappings and execute it, which registers the typed symbol
and inserts it into the family's (initially empty) dispatch dictionary.
`mk c d` is the entry point the format string produces for C-name `c` and
numpy datatype `d`. -/
def define_functions (mk : String → DType → EntryPoint) : Dict :=
  type_mappings.foldl (fun dct p => dict_set dct p.2 (mk p.1 p.2)) []

/-- The `flann_build_index_%(C)s` declaration produced by the format
string. -/
def build_index_entry (c : String) (d : DType) : EntryPoint :=
  { symbol := "flann_build_index_" ++ c
  , restype := some .flann_index
  , argtypes := [ .ndpointer d (some 2) false, .c_int, .c_int
                , .ptr_c_float, .ptr_flann_params ] }

/-- The `flann_used_memory_%(C)s` declaration. -/
def used_memory_entry (c : String) (_d : DType) : EntryPoint :=
  { symbol := "flann_used_memory_" ++ c
  , restype := some .c_int
  , argtypes := [.flann_index] }

/-- The `flann_add_points_%(C)s` declaration. -/
def add_points_entry (c : String) (d : DType) : EntryPoint :=
  { symbol := "flann_add_points_" ++ c
  , restype := none
  , argtypes := [.flann_index, .ndpointer d (some 2) false, .c_int, .c_int] }

/-- The `flann_remove_point_%(C)s` declaration. -/
def remove_point_entry (c : String) (_d : DType) : EntryPoint :=
  { symbol := "flann_remove_point_" ++ c
  , restype := none
  , argtypes := [.flann_index, .c_int] }

/-- The `flann_save_index_%(C)s` declaration. -/
def save_index_entry (c : String) (_d : DType) : EntryPoint :=
  { symbol := "flann_save_index_" ++ c
  , restype := none
  , argtypes := [.flann_index, .c_char_p] }

/-- The `flann_load_index_%(C)s` declaration. -/
def load_index_entry (c : String) (d : DType) : EntryPoint :=
  { symbol := "flann_load_index_" ++ c
  , restype := some .flann_index
  , argtypes := [.c_char_p, .ndpointer d (some 2) false, .c_int, .c_int] }

/-- The `flann_find_nearest_neighbors_%(C)s` declaration produced by the
format string: note the `dists` output array is float32 for every datatype
it generates. -/
def find_nearest_neighbors_entry (c : String) (d : DType) : EntryPoint :=
  { symbol := "flann_find_nearest_neighbors_" ++ c
  , restype := some .c_int
  , argtypes := [ .ndpointer d (some 2) false, .c_int, .c_int
                , .ndpointer d (some 2) false, .c_int
                , .ndpointer .int32 (some 2) true
                , .ndpointer .float32 (some 2) true
                , .c_int, .ptr_flann_params ] }

/-- The explicit re-registration fixing the `double` case of
`flann_find_nearest_neighbors`: float64 dataset/testset and a float64
`dists` output array. -/
def find_nearest_neighbors_double_entry : EntryPoint :=
  { symbol := "flann_find_nearest_neighbors_double"
  , restype := some .c_int
  , argtypes := [ .ndpointer .float64 (some 2) false, .c_int, .c_int
                , .ndpointer .float64 (some 2) false, .c_int
                , .ndpointer .int32 (some 2) true
                , .ndpointer .float64 (some 2) true
                , .c_int, .ptr_flann_params ] }

/-- The `flann_find_nearest_neighbors_index_%(C)s` declaration (float32
`dists` array). -/
def find_nearest_neighbors_index_entry (c : String) (d : DType) : EntryPoint :=
  { symbol := "flann_find_nearest_neighbors_index_" ++ c
  , restype := some .c_int
  , argtypes := [ .flann_index, .ndpointer d (some 2) false, .c_int
                , .ndpointer .int32 (some 2) true
                , .ndpointer .float32 (some 2) true
                , .c_int, .ptr_flann_params ] }

/-- The explicit `double` re-registration of
`flann_find_nearest_neighbors_index` (float64 testset and dists). -/
def find_nearest_neighbors_index_double_entry : EntryPoint :=
  { symbol := "flann_find_nearest_neighbors_index_double"
  , restype := some .c_int
  , argtypes := [ .flann_index, .ndpointer .float64 (some 2) false, .c_int
                , .ndpointer .int32 (some 2) true
                , .ndpointer .float64 (some 2) true
                , .c_int, .ptr_flann_params ] }

/-- The `flann_radius_search_%(C)s` declaration (float32 `dists` array). -/
def radius_search_entry (c : String) (d : DType) : EntryPoint :=
  { symbol := "flann_radius_search_" ++ c
  , restype := some .c_int
  , argtypes := [ .flann_index, .ndpointer d (some 1) false
                , .ndpointer .int32 (some 1) true
                , .ndpointer .float32 (some 1) true
                , .c_int, .c_float, .ptr_flann_params ] }

/-- The explicit `double` re-registration of `flann_radius_search`
(float64 query and dists). -/
def radius_search_double_entry : EntryPoint :=
  { symbol := "flann_radius_search_double"
  , restype := some .c_int
  , argtypes := [ .flann_index, .ndpointer .float64 (some 1) false
                , .ndpointer .int32 (some 1) true
                , .ndpointer .float64 (some 1) true
                , .c_int, .c_float, .ptr_flann_params ] }

/-- The `flann_compute_cluster_centers_%(C)s` declaration (float32 `result`
array, ndim unspecified). -/
def compute_cluster_centers_entry (c : String) (d : DType) : EntryPoint :=
  { symbol := "flann_compute_cluster_centers_" ++ c
  , restype := some .c_int
  , argtypes := [ .ndpointer d (some 2) false, .c_int, .c_int, .c_int
                , .ndpointer .float32 none true, .ptr_flann_params ] }

/-- The explicit `double` re-registration of
`flann_compute_cluster_centers` (float64 dataset and result). -/
def compute_cluster_centers_double_entry : EntryPoint :=
  { symbol := "flann_compute_cluster_centers_double"
  , restype := some .c_int
  , argtypes := [ .ndpointer .float64 (some 2) false, .c_int, .c_int, .c_int
                , .ndpointer .float64 none true, .ptr_flann_params ] }

/-- The `flann_free_index_%(C)s` declaration. -/
def free_index_entry (c : String) (_d : DType) : EntryPoint :=
  { symbol := "flann_free_index_" ++ c
  , restype := none
  , argtypes := [.flann_index, .ptr_flann_params] }

/-- `flann.build_index` after registration. -/
def flann_build_index : Dict := define_functions build_index_entry

/-- `flann.used_memory` after registration. -/
def flann_used_memory : Dict := define_functions used_memory_entry

/-- `flann.add_points` after registration. -/
def flann_add_points : Dict := define_functions add_points_entry

/-- `flann.remove_point` after registration. -/
def flann_remove_point : Dict := define_functions remove_point_entry

/-- `flann.save_index` after registration. -/
def flann_save_index : Dict := define_functions save_index_entry

/-- `flann.load_index` after registration. -/
def flann_load_index : Dict := define_functions load_index_entry

/-- `flann.find_nearest_neighbors` after registration: the macro-generated
four entries, then the `double` fix overwriting the float64 slot. -/
def flann_find_nearest_neighbors : Dict :=
  dict_set (define_functions find_nearest_neighbors_entry)
    .float64 find_nearest_neighbors_double_entry

/-- `flann.find_nearest_neighbors_index` after registration, with the
`double` fix. -/
def flann_find_nearest_neighbors_index : Dict :=
  dict_set (define_functions find_nearest_neighbors_index_entry)
    .float64 find_nearest_neighbors_index_double_entry

/-- `flann.radius_search` after registration, with the `double` fix. -/
def flann_radius_search : Dict :=
  dict_set (define_functions radius_search_entry)
    .float64 radius_search_double_entry

/-- `flann.compute_cluster_centers` after registration, with the `double`
exception. -/
def flann_compute_cluster_centers : Dict :=
  dict_set (define_functions compute_cluster_centers_entry)
    .float64 compute_cluster_centers_double_entry

/-- `flann.free_index` after registration. -/
def flann_free_index : Dict := define_functions free_index_entry

/-- What the filesystem/dynamic loader does for one candidate path: the
shared object loads (`cdll[libpath]` succeeds), the path does not exist
(`cdll` raises and `exists(libpath)` is false), or the path exists but
loading fails (`cdll` raises although the file exists). -/
inductive LoadStatus
  | loads (lib : Nat)
  | notExists
  | existsButFails
deriving DecidableEq, Repr

/-- The main loop of `load_flann_library` over the generated candidate
paths: take the first path that loads; skip a path that does not exist;
re-raise (`Except.error`) when a path exists but `CDLL` fails on it. -/
def try_libpaths (env : String → LoadStatus) :
    List String → Except Unit (Option Nat)
  | [] => .ok none
  | p :: ps =>
      match env p with
      | .loads l => .ok (some l)
      | .notExists => try_libpaths env ps
      | .existsButFails => .error ()

/-- The fallback loop of `load_flann_library` over the bare library names:
every exception is caught, so a failing path of either kind is skipped. -/
def try_fallback (env : String → LoadStatus) : List String → Option Nat
  | [] => none
  | p :: ps =>
      match env p with
      | .loads l => some l
      | .notExists => try_fallback env ps
      | .existsButFails => try_fallback env ps

/-- `load_flann_library()`, abstracted over the candidate path list, the
fallback bare-name list, and the filesystem environment. Returns the loaded
library (or `none`) paired with whether `warnings.warn` was called; an
uncaught `CDLL` exception is `Except.error`. -/
def load_flann_library (env : String → LoadStatus)
    (paths fallbacks : List String) : Except Unit (Option Nat × Bool) :=
  match try_libpaths env paths with
  | .error e => .error e
  | .ok (some l) => .ok (some l, false)
  | .ok none =>
      match try_fallback env fallbacks with
      | some l => .ok (some l, false)
      | none => .ok (none, true)

/-- Modelled from the spec: the Index Registry of the native engine is not
part of this file set (only the freed/built handles cross the binding as
opaque `FLANN_INDEX` values). Per the spec it owns the mapping from handle
to live index instance; build allocates a fresh handle, free removes and
releases it, and handles are never reused (generation/arena style). -/
structure Registry where
  nextHandle : Nat
  live : List Nat
deriving DecidableEq, Repr

/-- The operations the spec requires the registry to reject on a freed or
unknown handle. -/
inductive RegOp
  | search
  | add
  | remove
  | save
  | usedMemory
deriving DecidableEq, Repr

/-- Modelled from the spec: the distinct handle-error kind of the error
taxonomy. -/
inductive RegError
  | invalidHandle
deriving DecidableEq, Repr

/-- Modelled from the spec: build allocates a new handle and registers the
instance. -/
def Registry.build (r : Registry) : Registry × Nat :=
  (⟨r.nextHandle + 1, r.nextHandle :: r.live⟩, r.nextHandle)

/-- Modelled from the spec: free removes the handle and releases the
instance; the handle value is never reissued. -/
def Registry.free (r : Registry) (h : Nat) : Registry :=
  ⟨r.nextHandle, r.live.filter (fun h2 => h2 ≠ h)⟩

/-- Modelled from the spec: dispatch an operation against a handle; a
handle that is not live is rejected with the handle-error kind before any
index internals are reached. -/
def Registry.runOp (r : Registry) (h : Nat) (_op : RegOp) :
    Except RegError Registry :=
  if h ∈ r.live then .ok r else .error .invalidHandle

/-- A numpy array over element type α: its shape and its elements in
row-major order. -/
structure NDArray (α : Type) where
  shape : List Nat
  data : List α
deriving DecidableEq, Repr

/-- Total element count (`arr.size`). -/
def NDArray.size {α : Type} (a : NDArray α) : Nat :=
  a.data.length

/-- Numpy `arr.reshape(-1, m)`: the -1 dimension is inferred as
`size / m`, and numpy raises `ValueError` when the known dimension product
`m` is zero or does not divide the total size. -/
def reshape_neg1 {α : Type} (a : NDArray α) (m : Nat) :
    Except PyError (NDArray α) :=
  if m = 0 then .error .valueError
  else if a.size % m = 0 then .ok ⟨[a.size / m, m], a.data⟩
  else .error .valueError

/-- `ensure_2d_array(arr, flags)`: `require` enforces memory-layout flags
only (identity on shape and elements here); a 1-dimensional array is then
reshaped to `(-1, arr.size)`. -/
def ensure_2d_array {α : Type} (a : NDArray α) : Except PyError (NDArray α) :=
  if a.shape.length = 1 then reshape_neg1 a a.size
  else .ok a

/-! Helper lemmas about association-list lookup, the field store, and the
translation tables. -/

theorem lookup_eq_none_of_not_mem_keys {β : Type} {l : List (String × β)}
    {k : String} (h : k ∉ l.map Prod.fst) : List.lookup k l = none := by
  induction l with
  | nil => rfl
  | cons p rest ih =>
      simp only [List.map_cons, List.mem_cons, not_or] at h
      simp only [List.lookup]
      have hne : (k == p.1) = false := beq_eq_false_iff_ne.mpr h.1
      rw [hne]
      exact ih h.2

theorem mem_of_lookup_eq_some {β : Type} {l : List (String × β)}
    {k : String} {v : β} (h : List.lookup k l = some v) : (k, v) ∈ l := by
  induction l with
  | nil => simp [List.lookup] at h
  | cons p rest ih =>
      simp only [List.lookup] at h
      by_cases hk : k = p.1
      · subst hk
        rw [beq_self_eq_true] at h
        simp only [Option.some.injEq] at h
        subst h
        exact List.mem_cons_self _ _
      · rw [beq_eq_false_iff_ne.mpr hk] at h
        exact List.mem_cons_of_mem _ (ih h)

theorem lookup_eq_some_of_mem_nodup {β : Type} {l : List (String × β)}
    {k : String} {v : β} (hnd : (l.map Prod.fst).Nodup) (hm : (k, v) ∈ l) :
    List.lookup k l = some v := by
  induction l with
  | nil => cases hm
  | cons p rest ih =>
      simp only [List.map_cons, List.nodup_cons] at hnd
      rcases List.mem_cons.mp hm with heq | hmem
      · rw [← heq]
        simp [List.lookup]
      · simp only [List.lookup]
        have hk : k ≠ p.1 := by
          intro hkk
          have hk1 : k ∈ rest.map Prod.fst :=
            List.mem_map.mpr ⟨(k, v), hmem, rfl⟩
          rw [hkk] at hk1
          exact hnd.1 hk1
        rw [beq_eq_false_iff_ne.mpr hk]
        exact ih hnd.2 hmem

theorem find_snd_exists {l : List (String × Int)} {k : String} {v : Int}
    (hm : (k, v) ∈ l) :
    ∃ p, l.find? (fun q => q.2 == v) = some p ∧ p ∈ l ∧ p.2 = v := by
  induction l with
  | nil => cases hm
  | cons q rest ih =>
      by_cases hq : q.2 = v
      · refine ⟨q, ?_, List.mem_cons_self _ _, hq⟩
        simp [List.find?, hq]
      · rcases List.mem_cons.mp hm with heq | hmem
        · rw [← heq] at hq
          simp at hq
        · rcases ih hmem with ⟨p, hfind, hmem2, hsnd⟩
          refine ⟨p, ?_, List.mem_cons_of_mem _ hmem2, hsnd⟩
          simp only [List.find?]
          rw [beq_eq_false_iff_ne.mpr hq]
          exact hfind

theorem lookup_setStore (st : State) (k : String) (n : Int) :
    List.lookup k (setStore st k n) = some n := by
  induction st with
  | nil => simp [setStore, List.lookup]
  | cons p rest ih =>
      rcases p with ⟨k2, v2⟩
      simp only [setStore]
      by_cases h : k2 = k
      · subst h
        simp [List.lookup]
      · simp only [if_neg h, List.lookup]
        rw [beq_eq_false_iff_ne.mpr (fun hkk => h hkk.symm)]
        exact ih

theorem getStore_setStore (st : State) (k : String) (n : Int) :
    getStore (setStore st k n) k = n := by
  simp [getStore, lookup_setStore]

/-- Any field that has a translation table in `FLANNParameters` is declared
with ctype `c_int`. -/
theorem translated_field_ctype {field : String} {tbl : List (String × Int)}
    (hf : List.lookup field flann_params.translation = some tbl) :
    List.lookup field flann_params.fields = some .c_int := by
  by_cases h1 : field = "algorithm"
  · subst h1; rfl
  by_cases h2 : field = "centers_init"
  · subst h2; rfl
  by_cases h3 : field = "log_level"
  · subst h3; rfl
  have : List.lookup field flann_params.translation = none := by
    apply lookup_eq_none_of_not_mem_keys
    simp [flann_params, FLANNParameters_translation, h1, h2, h3]
  rw [this] at hf
  cases hf

/-- Each translation table of `FLANNParameters` has pairwise-distinct
symbolic keys. -/
theorem translation_table_keys_nodup {field : String}
    {tbl : List (String × Int)}
    (hf : List.lookup field flann_params.translation = some tbl) :
    (tbl.map Prod.fst).Nodup := by
  by_cases h1 : field = "algorithm"
  · subst h1
    cases hf
    decide
  by_cases h2 : field = "centers_init"
  · subst h2
    cases hf
    decide
  by_cases h3 : field = "log_level"
  · subst h3
    cases hf
    decide
  have : List.lookup field flann_params.translation = none := by
    apply lookup_eq_none_of_not_mem_keys
    simp [flann_params, FLANNParameters_translation, h1, h2, h3]
  rw [this] at hf
  cases hf

/-- Values already inside the signed 32-bit range are fixed by the ctypes
wrap-around. -/
theorem wrap_signed_32_eq_of_range {n : Int} (h1 : -(2 ^ 31) ≤ n)
    (h2 : n < 2 ^ 31) : wrap_signed 32 n = n := by
  have e31 : (2:Int) ^ 31 = 2147483648 := by norm_num
  have e32 : (2:Int) ^ 32 = 4294967296 := by norm_num
  show (n + 2 ^ 31) % 2 ^ 32 - 2 ^ 31 = n
  rw [e31, e32]
  rw [e31] at h1 h2
  omega

/-- Every integer code of every `FLANNParameters` translation table lies in
the signed 32-bit range. -/
theorem translation_codes_in_range {field : String}
    {tbl : List (String × Int)}
    (hf : List.lookup field flann_params.translation = some tbl) :
    ∀ m ∈ tbl.map Prod.snd, -(2 ^ 31) ≤ m ∧ m < 2 ^ 31 := by
  by_cases h1 : field = "algorithm"
  · subst h1
    cases hf
    decide
  by_cases h2 : field = "centers_init"
  · subst h2
    cases hf
    decide
  by_cases h3 : field = "log_level"
  · subst h3
    cases hf
    decide
  have : List.lookup field flann_params.translation = none := by
    apply lookup_eq_none_of_not_mem_keys
    simp [flann_params, FLANNParameters_translation, h1, h2, h3]
  rw [this] at hf
  cases hf

/-- The ctypes wrap-around is the identity on any code stored by a
`FLANNParameters` translation table. -/
theorem table_code_wrap {field : String} {tbl : List (String × Int)}
    {s : String} {n : Int}
    (hf : List.lookup field flann_params.translation = some tbl)
    (hs : List.lookup s tbl = some n) : wrap_signed 32 n = n := by
  have hmem : n ∈ tbl.map Prod.snd :=
    List.mem_map.mpr ⟨(s, n), mem_of_lookup_eq_some hs, rfl⟩
  have hb := translation_codes_in_range hf n hmem
  exact wrap_signed_32_eq_of_range hb.1 hb.2

/-- Unfolding of `setitem` on a field with a translation table: a string
not in the table falls through untranslated and the ctypes layer raises
`TypeError`; an integer is passed through untranslated and stored with
the silent ctypes 32-bit wrap; a string in the table is stored as its
integer code (table codes are in range, so the wrap fixes them). -/
theorem setitem_translated (st : State) (field : String)
    (tbl : List (String × Int))
    (hfld : List.lookup field flann_params.fields = some .c_int)
    (htr : List.lookup field flann_params.translation = some tbl) :
    (∀ s, List.lookup s tbl = none →
        setitem flann_params st field (.str s) = .error .typeError) ∧
    (∀ n : Int, setitem flann_params st field (.int n) =
        .ok (setStore st field (wrap_signed 32 n))) ∧
    (∀ s n, List.lookup s tbl = some n →
        setitem flann_params st field (.str s) = .ok (setStore st field n)) := by
  refine ⟨?_, ?_, ?_⟩
  · intro s hs
    simp [setitem, hfld, translate, htr, hs, ctype_store, Except.map]
  · intro n
    simp [setitem, hfld, translate, htr, ctype_store, Except.map]
  · intro s n hs
    simp [setitem, hfld, translate, htr, hs, ctype_store, Except.map,
      table_code_wrap htr hs]

/-- Reading back a stored code through `translate_back`: when the table
contains some key carrying code `n`, the first such key is returned and it
looks up to `n` again. -/
theorem translate_back_code {field : String} {tbl : List (String × Int)}
    {n : Int} (hf : List.lookup field flann_params.translation = some tbl)
    (hmem : ∃ s, List.lookup s tbl = some n) :
    ∃ s2, translate_back flann_params field n = .str s2 ∧
      List.lookup s2 tbl = some n := by
  rcases hmem with ⟨s, hs⟩
  rcases find_snd_exists (mem_of_lookup_eq_some hs) with ⟨p, hfind, hmem2, hsnd⟩
  refine ⟨p.1, ?_, ?_⟩
  · simp [translate_back, hf, hfind]
  · have := lookup_eq_some_of_mem_nodup (translation_table_keys_nodup hf)
      (show (p.1, p.2) ∈ tbl from hmem2)
    rw [this, hsnd]

/-! Claim theorems. -/

/-- C1 (counterexample): the claim says `FLANNParameters` has 20 fields,
but the `_fields_` list of the source has 21 entries (the claim's own
enumeration lists 21 names). -/
theorem C1_counterexample_not_twenty_fields :
    FLANNParameters_fields.length ≠ 20 := by decide

/-- C1 (amended): `FLANNParameters` is a flat fixed-order record of 21
fields, laid out exactly in the order: algorithm, checks, eps, sorted,
max_neighbors, cores, trees, leaf_max_size, branching, iterations,
centers_init, cb_index, target_precision, build_weight, memory_weight,
sample_fraction, table_number_, key_size_, multi_probe_level_, log_level,
random_seed. -/
theorem C1_field_layout :
    FLANNParameters_fields.map Prod.fst =
      [ "algorithm", "checks", "eps", "sorted", "max_neighbors", "cores"
      , "trees", "leaf_max_size", "branching", "iterations", "centers_init"
      , "cb_index", "target_precision", "build_weight", "memory_weight"
      , "sample_fraction", "table_number_", "key_size_", "multi_probe_level_"
      , "log_level", "random_seed" ] ∧
    FLANNParameters_fields.length = 21 := by decide

/-- C2: for every configuration structure and every key `k` not among its
field names, `structure[k] = v` raises `KeyError` synchronously, and
`update` on a dict containing `k` fails with an error rather than silently
ignoring the key. -/
theorem C2_unknown_key_raises (c : CustomStructure) (st : State) (k : String)
    (v : PyVal) (hk : k ∉ c.fields.map Prod.fst) :
    setitem c st k v = .error (.keyError k) ∧
    ∀ d : List (String × PyVal), (k, v) ∈ d →
      ∃ e, update c st d = .error e := by
  have hl : List.lookup k c.fields = none := lookup_eq_none_of_not_mem_keys hk
  have hset : ∀ st2 : State, setitem c st2 k v = .error (.keyError k) := by
    intro st2
    simp [setitem, hl]
  refine ⟨hset st, ?_⟩
  intro d hd
  induction d generalizing st with
  | nil => cases hd
  | cons p rest ih =>
      rcases p with ⟨k1, v1⟩
      rcases hterm : setitem c st k1 v1 with e | st2
      · exact ⟨e, by simp [update, hterm]⟩
      · rcases List.mem_cons.mp hd with heq | hmem
        · exfalso
          have hk1 : k1 = k := congrArg Prod.fst heq.symm
          have hv1 : v1 = v := congrArg Prod.snd heq.symm
          rw [hk1, hv1, hset st] at hterm
          cases hterm
        · rcases ih st2 hmem with ⟨e, he⟩
          exact ⟨e, by simp [update, hterm, he]⟩

/-- C2 witness at `FLANNParameters`, key "bogus". -/
theorem C2_witness :
    ("bogus" ∉ flann_params.fields.map Prod.fst) ∧
    (setitem flann_params [] "bogus" (.int 0) = .error (.keyError "bogus") ∧
     ∃ e, update flann_params [] [("bogus", .int 0)] = .error e) :=
  ⟨by decide,
   (C2_unknown_key_raises flann_params [] "bogus" (.int 0) (by decide)).1,
   (C2_unknown_key_raises flann_params [] "bogus" (.int 0) (by decide)).2
     [("bogus", .int 0)] (by decide)⟩

/-- C3 (counterexample): the integer 99 is not a key of the `algorithm`
translation table, yet `params['algorithm'] = 99` succeeds silently,
storing 99 — assigning an invalid enum value does not always fail. -/
theorem C3_counterexample_int_passthrough :
    (PyVal.int 99 ∉ algorithm_table.map (fun p => PyVal.str p.1)) ∧
    setitem flann_params [] "algorithm" (.int 99) =
      .ok [("algorithm", (99 : Int))] := by decide

/-- C3 (amended): for every translated field (algorithm, centers_init,
log_level), a value that is not a key of the field's translation table is
passed through untranslated: a string value then fails synchronously with
`TypeError` from the ctypes layer, while a numeric value is accepted with
no error raised and silently stored with only ctypes' 32-bit wrap-around
applied (so in-range values, such as 99, are stored unchanged). -/
theorem C3_invalid_enum_behavior (st : State) (field s : String)
    (tbl : List (String × Int)) (n : Int)
    (hf : List.lookup field flann_params.translation = some tbl)
    (hs : List.lookup s tbl = none) :
    setitem flann_params st field (.str s) = .error .typeError ∧
    setitem flann_params st field (.int n) =
      .ok (setStore st field (wrap_signed 32 n)) ∧
    (-(2 ^ 31) ≤ n → n < 2 ^ 31 →
      setitem flann_params st field (.int n) = .ok (setStore st field n)) := by
  have hfld := translated_field_ctype hf
  have h := setitem_translated st field tbl hfld hf
  refine ⟨h.1 s hs, h.2.1 n, fun hlo hhi => ?_⟩
  rw [h.2.1 n, wrap_signed_32_eq_of_range hlo hhi]

/-- C3 witness at field "algorithm", invalid symbolic value "bogus" and
invalid numeric value 99 (and, as the wrap-around conjunct shows on the
general theorem, an out-of-range 2^32 would be silently stored as 0). -/
theorem C3_witness :
    (List.lookup "algorithm" flann_params.translation = some algorithm_table ∧
     List.lookup "bogus" algorithm_table = none ∧
     -(2 ^ 31) ≤ (99 : Int) ∧ (99 : Int) < 2 ^ 31) ∧
    (setitem flann_params [] "algorithm" (.str "bogus") = .error .typeError ∧
     setitem flann_params [] "algorithm" (.int 99) =
       .ok (setStore [] "algorithm" (wrap_signed 32 99)) ∧
     setitem flann_params [] "algorithm" (.int 99) =
       .ok (setStore [] "algorithm" 99)) :=
  ⟨⟨rfl, rfl, by decide, by decide⟩,
   (C3_invalid_enum_behavior [] "algorithm" "bogus" algorithm_table 99
       rfl rfl).1,
   (C3_invalid_enum_behavior [] "algorithm" "bogus" algorithm_table 99
       rfl rfl).2.1,
   (C3_invalid_enum_behavior [] "algorithm" "bogus" algorithm_table 99
       rfl rfl).2.2 (by decide) (by decide)⟩

/-- C4: when no candidate path (main list or fallback list) holds the
shared library, `load_flann_library` does not raise: it warns and returns
`None`, leaving the module loaded in a disabled state. -/
theorem C4_missing_library_warns (env : String → LoadStatus)
    (paths fallbacks : List String)
    (h : ∀ p, p ∈ paths ++ fallbacks → env p = .notExists) :
    load_flann_library env paths fallbacks = .ok (none, true) := by
  have h1 : ∀ p ∈ paths, env p = .notExists := fun p hp =>
    h p (List.mem_append_left _ hp)
  have h2 : ∀ p ∈ fallbacks, env p = .notExists := fun p hp =>
    h p (List.mem_append_right _ hp)
  have e1 : try_libpaths env paths = .ok none := by
    clear h h2
    induction paths with
    | nil => rfl
    | cons p ps ih =>
        have hp := h1 p (List.mem_cons_self _ _)
        simp only [try_libpaths, hp]
        exact ih fun q hq => h1 q (List.mem_cons_of_mem _ hq)
  have e2 : try_fallback env fallbacks = none := by
    clear h h1 e1
    induction fallbacks with
    | nil => rfl
    | cons p ps ih =>
        have hp := h2 p (List.mem_cons_self _ _)
        simp only [try_fallback, hp]
        exact ih fun q hq => h2 q (List.mem_cons_of_mem _ hq)
  simp [load_flann_library, e1, e2]

/-- C4 witness: a filesystem on which no path exists. -/
theorem C4_witness :
    (∀ p, p ∈ (["libflann.so"] ++ ["libflann.so"] : List String) →
      (fun _ => LoadStatus.notExists) p = .notExists) ∧
    load_flann_library (fun _ => LoadStatus.notExists)
      ["libflann.so"] ["libflann.so"] = .ok (none, true) :=
  ⟨fun _p _ => rfl,
   C4_missing_library_warns (fun _ => LoadStatus.notExists)
     ["libflann.so"] ["libflann.so"] (fun _p _ => rfl)⟩

/-- C5: every per-family dispatch dictionary of the binding carries exactly
the four element types float32, float64, uint8, int32 as keys, for all
eleven function families. -/
theorem C5_function_tables_cover_types :
    dict_keys flann_build_index = [.float32, .float64, .uint8, .int32] ∧
    dict_keys flann_find_nearest_neighbors =
      [.float32, .float64, .uint8, .int32] ∧
    dict_keys flann_find_nearest_neighbors_index =
      [.float32, .float64, .uint8, .int32] ∧
    dict_keys flann_radius_search = [.float32, .float64, .uint8, .int32] ∧
    dict_keys flann_add_points = [.float32, .float64, .uint8, .int32] ∧
    dict_keys flann_remove_point = [.float32, .float64, .uint8, .int32] ∧
    dict_keys flann_save_index = [.float32, .float64, .uint8, .int32] ∧
    dict_keys flann_load_index = [.float32, .float64, .uint8, .int32] ∧
    dict_keys flann_compute_cluster_centers =
      [.float32, .float64, .uint8, .int32] ∧
    dict_keys flann_used_memory = [.float32, .float64, .uint8, .int32] ∧
    dict_keys flann_free_index = [.float32, .float64, .uint8, .int32] := by
  decide

/-- C6: for each search-family function, the float64 slot of the dispatch
dictionary holds the separately registered `double` entry, which differs
from what the macro-generated format string would produce at `double`:
its output arrays (`dists` / cluster `result`) are float64, where the
macro-generated signature declares them float32. -/
theorem C6_double_registered_separately :
    (dict_get flann_find_nearest_neighbors .float64 =
        some find_nearest_neighbors_double_entry ∧
      find_nearest_neighbors_double_entry ≠
        find_nearest_neighbors_entry "double" .float64 ∧
      find_nearest_neighbors_double_entry.argtypes[6]? =
        some (.ndpointer .float64 (some 2) true) ∧
      (find_nearest_neighbors_entry "double" .float64).argtypes[6]? =
        some (.ndpointer .float32 (some 2) true)) ∧
    (dict_get flann_find_nearest_neighbors_index .float64 =
        some find_nearest_neighbors_index_double_entry ∧
      find_nearest_neighbors_index_double_entry ≠
        find_nearest_neighbors_index_entry "double" .float64 ∧
      find_nearest_neighbors_index_double_entry.argtypes[4]? =
        some (.ndpointer .float64 (some 2) true) ∧
      (find_nearest_neighbors_index_entry "double" .float64).argtypes[4]? =
        some (.ndpointer .float32 (some 2) true)) ∧
    (dict_get flann_radius_search .float64 =
        some radius_search_double_entry ∧
      radius_search_double_entry ≠ radius_search_entry "double" .float64 ∧
      radius_search_double_entry.argtypes[3]? =
        some (.ndpointer .float64 (some 1) true) ∧
      (radius_search_entry "double" .float64).argtypes[3]? =
        some (.ndpointer .float32 (some 1) true)) ∧
    (dict_get flann_compute_cluster_centers .float64 =
        some compute_cluster_centers_double_entry ∧
      compute_cluster_centers_double_entry ≠
        compute_cluster_centers_entry "double" .float64 ∧
      compute_cluster_centers_double_entry.argtypes[4]? =
        some (.ndpointer .float64 none true) ∧
      (compute_cluster_centers_entry "double" .float64).argtypes[4]? =
        some (.ndpointer .float32 none true)) := by
  decide

/-- C7: exactly the fields algorithm, centers_init and log_level carry
translation tables, and for any symbolic name in a field's table, assigning
it stores the table's integer code and reading the field back returns a
symbolic name that carries that same code. -/
theorem C7_translation_roundtrip (st : State) (field s : String)
    (tbl : List (String × Int)) (n : Int)
    (hf : List.lookup field flann_params.translation = some tbl)
    (hs : List.lookup s tbl = some n) :
    flann_params.translation.map Prod.fst =
      ["algorithm", "centers_init", "log_level"] ∧
    setitem flann_params st field (.str s) = .ok (setStore st field n) ∧
    ∃ s2, getitem flann_params (setStore st field n) field =
        some (.str s2) ∧ List.lookup s2 tbl = some n := by
  have hfld := translated_field_ctype hf
  refine ⟨by decide, (setitem_translated st field tbl hfld hf).2.2 s n hs, ?_⟩
  rcases translate_back_code hf ⟨s, hs⟩ with ⟨s2, hback, hlook⟩
  refine ⟨s2, ?_, hlook⟩
  simp [getitem, hfld, getStore_setStore, hback]

/-- C7 witness: algorithm := "kmeans" stores 2 and reads back as "kmeans". -/
theorem C7_witness :
    (List.lookup "algorithm" flann_params.translation = some algorithm_table ∧
     List.lookup "kmeans" algorithm_table = some 2) ∧
    (flann_params.translation.map Prod.fst =
       ["algorithm", "centers_init", "log_level"] ∧
     setitem flann_params [] "algorithm" (.str "kmeans") =
       .ok (setStore [] "algorithm" 2) ∧
     ∃ s2, getitem flann_params (setStore [] "algorithm" 2) "algorithm" =
         some (.str s2) ∧ List.lookup s2 algorithm_table = some 2) :=
  ⟨⟨rfl, rfl⟩,
   C7_translation_roundtrip [] "algorithm" "kmeans" algorithm_table 2 rfl rfl⟩

/-- C8: after a handle is freed, every registry operation (search, add,
remove, save, usedMemory) against it is rejected with the distinct
handle-error kind, never dispatched. (Registry modelled from the spec; the
native engine is not part of this file set.) -/
theorem C8_freed_handle_rejected (r : Registry) (h : Nat) (op : RegOp) :
    (r.free h).runOp h op = .error .invalidHandle := by
  have hnm : h ∉ (r.free h).live := by
    simp [Registry.free]
  simp [Registry.runOp, hnm]

/-- C9: reading an unknown key from a configuration structure silently
returns `None`, asymmetric with assignment, which raises `KeyError` for
the same key. -/
theorem C9_get_none_set_raises (c : CustomStructure) (st : State)
    (k : String) (v : PyVal) (hk : k ∉ c.fields.map Prod.fst) :
    getitem c st k = none ∧ setitem c st k v = .error (.keyError k) := by
  have hl : List.lookup k c.fields = none := lookup_eq_none_of_not_mem_keys hk
  exact ⟨by simp [getitem, hl], by simp [setitem, hl]⟩

/-- C9 witness at `FLANNParameters`, key "unknown_key". -/
theorem C9_witness :
    ("unknown_key" ∉ flann_params.fields.map Prod.fst) ∧
    (getitem flann_params [] "unknown_key" = none ∧
     setitem flann_params [] "unknown_key" (.int 7) =
       .error (.keyError "unknown_key")) :=
  ⟨by decide,
   C9_get_none_set_raises flann_params [] "unknown_key" (.int 7) (by decide)⟩

/-- C10 (counterexample): on an empty 1-dimensional array,
`ensure_2d_array` does not return the 1×0 result the claim demands — numpy
raises `ValueError`, because `reshape(-1, 0)` cannot infer the -1
dimension when the known dimension product is zero. -/
theorem C10_counterexample_empty_input :
    ensure_2d_array (⟨[0], []⟩ : NDArray Nat) ≠ .ok ⟨[1, 0], []⟩ ∧
    ensure_2d_array (⟨[0], []⟩ : NDArray Nat) = .error .valueError := by
  decide

/-- C10 (amended): for every nonempty 1-dimensional input of length n,
`ensure_2d_array` returns a 2-dimensional array of shape 1×n with the same
elements in order (an empty 1-dimensional input instead raises
`ValueError`), and a 2-dimensional input keeps its shape and elements. -/
theorem C10_ensure_2d (α : Type) (xs : List α) (hne : xs ≠ []) :
    ensure_2d_array ⟨[xs.length], xs⟩ = .ok ⟨[1, xs.length], xs⟩ ∧
    ∀ (r c : Nat) (ys : List α),
      ensure_2d_array ⟨[r, c], ys⟩ = .ok ⟨[r, c], ys⟩ := by
  constructor
  · have hn : xs.length ≠ 0 := by
      simpa using hne
    have hpos : 0 < xs.length := Nat.pos_of_ne_zero hn
    simp [ensure_2d_array, reshape_neg1, NDArray.size, hn, Nat.mod_self,
      Nat.div_self hpos]
  · intro r c ys
    simp [ensure_2d_array]

/-- C10 witness: the singleton array [5]. -/
theorem C10_witness :
    (([5] : List Nat) ≠ []) ∧
    ensure_2d_array (⟨[1], [5]⟩ : NDArray Nat) = .ok ⟨[1, 1], [5]⟩ :=
  ⟨by decide, (C10_ensure_2d Nat [5] (by decide)).1⟩

end PyFlann
